import Mathlib

/-!
Verification of the Brave Search MCP server
(`servers/brave_search/brave_search_mcp/main.py` together with the
`WebSearchRequest` model of `servers/brave_search/src/models.py`).

Strings are modelled as `List Char` (Python strings are sequences of
Unicode code points) except where Lean's `String` is more convenient;
`String.data` mediates.  Network effects are modelled by passing the
outcome of the single outbound HTTP call as an explicit argument, plus a
Boolean recording whether the call site that performs network I/O was
reached.  A raised Python exception is an `Except.error`.
-/

namespace BraveSearchMcp

/-! ## Python string primitives -/

/-- Characters for which Python's `str.isspace` holds (the ones relevant
to `str.strip()`); covers ASCII whitespace, the C1/Unicode line and
paragraph separators and the Unicode space category. -/
def isPySpace (c : Char) : Bool :=
  c = ' ' || c = '\t' || c = '\n' || c = '\x0b' || c = '\x0c' || c = '\r' ||
  c = '\x1c' || c = '\x1d' || c = '\x1e' || c = '\x1f' || c = '\u0085' ||
  c = '\u00a0' || c = '\u1680' ||
  (0x2000 ≤ c.toNat && c.toNat ≤ 0x200a) ||
  c = '\u2028' || c = '\u2029' || c = '\u202f' || c = '\u205f' || c = '\u3000'

/-- Python `str.strip()`: remove leading and trailing whitespace. -/
def pyStrip (s : List Char) : List Char :=
  ((s.dropWhile isPySpace).reverse.dropWhile isPySpace).reverse

/-- Line-boundary characters of Python `str.splitlines` ( `"\r\n"` is
handled as a single boundary in `pySplitlines`). -/
def isLineBreakChar (c : Char) : Bool :=
  c = '\n' || c = '\r' || c = '\x0b' || c = '\x0c' ||
  c = '\x1c' || c = '\x1d' || c = '\x1e' || c = '\u0085' ||
  c = '\u2028' || c = '\u2029'

/-- Python `str.splitlines()`: split at line boundaries, treating
`"\r\n"` as one boundary; a trailing boundary produces no empty final
line, and the empty string yields no lines at all. -/
def pySplitlines : List Char → List (List Char)
  | [] => []
  | '\r' :: '\n' :: rest => [] :: pySplitlines rest
  | c :: rest =>
    if isLineBreakChar c then
      [] :: pySplitlines rest
    else
      match pySplitlines rest with
      | [] => [[c]]
      | l :: ls => (c :: l) :: ls

/-- Python `"\n".join(lines)`. -/
def joinLines : List (List Char) → List Char
  | [] => []
  | [l] => l
  | l :: l2 :: ls => l ++ '\n' :: joinLines (l2 :: ls)

/-- Python slicing `s[:n]` on a `String`. -/
def strTake (n : Nat) (s : String) : String :=
  ⟨s.data.take n⟩

/-! ## `WebSearchRequest` (src/models.py lines 6-18)

Pydantic model with fields `q : str` (validator: must not be empty after
`strip()`), `count : int` (`ge=1`, `le=MAX_RESULTS_PER_REQUEST = 20`,
default 10), `offset : int` (`ge=0`, default 0), `search_lang : str`
(default `"en"`).  Construction either succeeds or raises a pydantic
`ValidationError`; pydantic aggregates the per-field messages into one
exception, which we model as the first failing check's message. -/

def MAX_RESULTS_PER_REQUEST : Int := 20

structure WebSearchRequest where
  q : String
  count : Int
  offset : Int
  search_lang : String
deriving DecidableEq, Repr

/-- Constructing `WebSearchRequest(q=query, count=count, offset=offset)`:
the `search_lang` field takes its default `"en"`; a failed constraint
raises `ValidationError` (modelled as `Except.error`). -/
def mkWebSearchRequest (q : String) (count : Int) (offset : Int) :
    Except String WebSearchRequest :=
  if pyStrip q.data = [] then
    .error "Search query cannot be empty"
  else if count < 1 then
    .error "Input should be greater than or equal to 1"
  else if MAX_RESULTS_PER_REQUEST < count then
    .error "Input should be less than or equal to 20"
  else if offset < 0 then
    .error "Input should be greater than or equal to 0"
  else
    .ok ⟨q, count, offset, "en"⟩

/-! ## `urllib.parse.urlsplit` and `is_valid_url` (main.py lines 242-259)

CPython's `urlsplit`: left-strip C0-control/space characters, delete any
tab, carriage return and newline, split off a scheme when the text
before the first `":"` is non-empty, starts with an ASCII letter and
consists of scheme characters, then read the network location between a
leading `"//"` and the next `"/"`, `"?"` or `"#"`.  A netloc containing
`"["` without `"]"` (or vice versa) raises `ValueError "Invalid IPv6
URL"`.  (CPython additionally rejects a handful of exotic-Unicode
netlocs and malformed bracketed hosts with `ValueError`; those branches
also make `is_valid_url` return `False` and are not modelled.) -/

/-- `scheme_chars` of `urllib.parse`: ASCII letters, digits, `+`, `-`, `.`. -/
def isSchemeChar (c : Char) : Bool :=
  c.isAlpha || c.isDigit || c = '+' || c = '-' || c = '.'

/-- Index of the first `':'`, as in Python `url.find(':')`. -/
def findColon : List Char → Option Nat
  | [] => none
  | c :: rest => if c = ':' then some 0 else (findColon rest).map (· + 1)

structure SplitResult where
  scheme : String
  netloc : List Char
deriving DecidableEq, Repr

/-- Characters that end the netloc: `urllib`'s `_splitnetloc` scans for
`"/?#"`. -/
def isNetlocDelim (c : Char) : Bool :=
  c = '/' || c = '?' || c = '#'

/-- The scheme-splitting step of `urlsplit`: if the text before the first
`":"` is a well-formed scheme, lowercase it and drop it (with the colon)
from the rest. -/
def splitScheme (url : List Char) : String × List Char :=
  match findColon url with
  | some i =>
    if 0 < i && url.head?.any (fun c => c.isAlpha) &&
        (url.take i).all isSchemeChar then
      (⟨(url.take i).map Char.toLower⟩, url.drop (i + 1))
    else
      ("", url)
  | none => ("", url)

/-- `urllib.parse.urlsplit` restricted to the components `is_valid_url`
and `.hostname` read (scheme and netloc). `Except.error` models a raised
`ValueError`. -/
def urlsplitModel (url0 : String) : Except String SplitResult :=
  let url1 := url0.data.dropWhile (fun c => c.toNat ≤ 0x20)
  let url := url1.filter (fun c => !(c = '\t' || c = '\r' || c = '\n'))
  let sr := splitScheme url
  if (sr.2.take 2) = ['/', '/'] then
    let netloc := (sr.2.drop 2).takeWhile (fun c => !isNetlocDelim c)
    if (netloc.contains '[' && !netloc.contains ']') ||
        (netloc.contains ']' && !netloc.contains '[') then
      .error "Invalid IPv6 URL"
    else
      .ok ⟨sr.1, netloc⟩
  else
    .ok ⟨sr.1, []⟩

/-- `is_valid_url` (main.py lines 242-259): `urlparse` the string, accept
iff the scheme is `http` or `https` and the netloc is non-empty
(`bool(result.netloc)`); `ValueError`/`TypeError` are caught and yield
`False`. -/
def is_valid_url (url : String) : Bool :=
  match urlsplitModel url with
  | .error _ => false
  | .ok r => (r.scheme = "http" || r.scheme = "https") && !r.netloc.isEmpty

/-- The `hostname` property of a parse result, from the netloc:
`urllib`'s `_hostinfo` takes the part after the last `"@"`, then either
the bracket-delimited host or the part before the first `":"`,
lowercased.  (`SplitResult.hostname` returns `None` when this is empty.) -/
def hostOf (netloc : List Char) : List Char :=
  let hostinfo := (netloc.reverse.takeWhile (fun c => c ≠ '@')).reverse
  let host :=
    if hostinfo.contains '[' then
      ((hostinfo.dropWhile (fun c => c ≠ '[')).drop 1).takeWhile (fun c => c ≠ ']')
    else
      hostinfo.takeWhile (fun c => c ≠ ':')
  host.map Char.toLower

/-- The validity predicate in the words of the specification: the string
parses into a URL whose scheme is exactly `http` or `https` and whose
host component is non-empty. -/
def specValidUrl (url : String) : Bool :=
  match urlsplitModel url with
  | .error _ => false
  | .ok r => (r.scheme = "http" || r.scheme = "https") && !(hostOf r.netloc).isEmpty

/-! ## Result formatting (main.py lines 63-95)

A search hit is a JSON object read with `result.get(key, default)`; a
missing key is `none` and falls back to the per-field default. -/

structure SearchHit where
  title : Option String
  url : Option String
  description : Option String
deriving DecidableEq, Repr

/-- One formatted block of the loop body (main.py lines 84-93), for the
hit numbered `i`. -/
def formatHit (i : Int) (r : SearchHit) : String :=
  "[Result " ++ toString i ++ "]\n" ++
  "  Title: " ++ r.title.getD "No title available" ++ "\n" ++
  "  URL: " ++ r.url.getD "No URL available" ++ "\n" ++
  "  Description: " ++ r.description.getD "No description available"

/-- `enumerate(results, start)`: the blocks numbered `start`, `start+1`, …. -/
def enumFormat (start : Int) : List SearchHit → List String
  | [] => []
  | r :: rs => formatHit start r :: enumFormat (start + 1) rs

/-- The blocks produced by `for i, result in enumerate(results, 1 + offset)`. -/
def formatBlocks (results : List SearchHit) (offset : Int) : List String :=
  enumFormat (1 + offset) results

/-- Main.py lines 76-95: the no-results sentinel for an empty list,
otherwise the numbered blocks joined by `"\n\n"`. -/
def formatResults (results : List SearchHit) (offset : Int) : String :=
  if results.isEmpty then
    "No search results found for your query."
  else
    String.intercalate "\n\n" (formatBlocks results offset)

/-- The parsed-JSON dictionary returned by `make_brave_request`, as far
as `brave_web_search` inspects it: presence and value of the `"error"`
key, presence of `"web"`, presence of `"results"` under `"web"`. -/
structure BraveData where
  error : Option String
  web : Option (Option (List SearchHit))
deriving Repr

/-- Main.py lines 63-95: the response-processing tail of
`brave_web_search` once `make_brave_request` has returned `data` —
`"error" in data` is checked first, then the `"web"`/`"results"`
structure, then emptiness, then the formatting loop. -/
def processSearchData (offset : Int) (data : BraveData) : String :=
  match data.error with
  | some e => "Search error: " ++ e
  | none =>
    match data.web with
    | none => "Error: Unexpected response format from search API"
    | some w =>
      match w with
      | none => "Error: Unexpected response format from search API"
      | some results => formatResults results offset

/-! ## Request building (main.py lines 54-56) -/

/-- The field map produced by pydantic's `model_dump()` on
`WebSearchRequest`, each value tagged with whether it is `None`.  All
four fields are declared with non-optional types and validated defaults,
so every value is `some`. -/
def model_dump_fields (r : WebSearchRequest) : List (String × Option String) :=
  [("q", some r.q), ("count", some (toString r.count)),
   ("offset", some (toString r.offset)), ("search_lang", some r.search_lang)]

/-- `model_dump(exclude_none=True)`: drop exactly the `None`-valued
fields. -/
def model_dump_exclude_none (r : WebSearchRequest) : List (String × String) :=
  (model_dump_fields r).filterMap (fun kv => kv.2.map (fun v => (kv.1, v)))

/-- Characters `urllib.parse.quote_plus` leaves unescaped: ASCII
alphanumerics and `_.-~`. -/
def isUrlencodeSafe (c : Char) : Bool :=
  c.isAlpha || c.isDigit || c = '_' || c = '.' || c = '-' || c = '~'

def hexDigitChar (n : Nat) : Char :=
  if n < 10 then Char.ofNat ('0'.toNat + n) else Char.ofNat ('A'.toNat + n - 10)

/-- Percent-encode one byte. -/
def percentByte (b : Nat) : List Char :=
  ['%', hexDigitChar (b / 16 % 16), hexDigitChar (b % 16)]

/-- UTF-8 bytes of one code point. -/
def utf8Bytes (c : Char) : List Nat :=
  let n := c.toNat
  if n < 0x80 then [n]
  else if n < 0x800 then [0xC0 + n / 64, 0x80 + n % 64]
  else if n < 0x10000 then
    [0xE0 + n / 4096, 0x80 + n / 64 % 64, 0x80 + n % 64]
  else
    [0xF0 + n / 262144, 0x80 + n / 4096 % 64, 0x80 + n / 64 % 64, 0x80 + n % 64]

/-- `urllib.parse.quote_plus`: safe characters kept, space becomes `+`,
everything else UTF-8 percent-encoded. -/
def quotePlus (s : String) : String :=
  ⟨s.data.flatMap (fun c =>
    if isUrlencodeSafe c then [c]
    else if c = ' ' then ['+']
    else (utf8Bytes c).flatMap percentByte)⟩

/-- `urllib.parse.urlencode(params)` with its default `quote_via=quote_plus`. -/
def pyUrlencode (params : List (String × String)) : String :=
  String.intercalate "&" (params.map (fun kv => quotePlus kv.1 ++ "=" ++ quotePlus kv.2))

def BRAVE_API_BASE : String := "https://api.search.brave.com/res/v1"

/-- Main.py line 56: the request URL of `brave_web_search`. -/
def buildSearchUrl (r : WebSearchRequest) : String :=
  BRAVE_API_BASE ++ "/web/search?" ++ pyUrlencode (model_dump_exclude_none r)

/-! ## `brave_web_search` (main.py lines 31-95)

The tool body as a function of its arguments and of the dictionary the
single `make_brave_request` call would return.  The first component is
the Python outcome (`.ok` a returned string, `.error` a raised
exception); the second records whether the network call site
(`await make_brave_request`) was reached. -/

def brave_web_search (query : String) (count : Int) (offset : Int)
    (netData : BraveData) : Except String String × Bool :=
  match mkWebSearchRequest query count offset with
  | .error e => (.error e, false)
  | .ok req => (.ok (processSearchData req.offset netData), true)

/-! ## Error classification in `make_brave_request` (main.py lines 205-227) -/

/-- The specification's closed error taxonomy, restricted to the kinds an
HTTP status error can produce (spec §4.3). -/
inductive ErrorKind where
  | AuthError
  | PermissionError
  | RateLimited
  | UpstreamServerError
  | ClientError
deriving DecidableEq, Repr

/-- The branch of main.py lines 208-227 an HTTP status lands in, read as
the specification's `ErrorKind`: `401` → `AuthError`, `403` →
`PermissionError`, `429` → `RateLimited`, `≥ 500` →
`UpstreamServerError`, everything else → `ClientError`.  A total
function of the status, so classification terminates, never raises and
is deterministic by construction. -/
def classifyStatus (status : Nat) : ErrorKind :=
  if status = 401 then .AuthError
  else if status = 403 then .PermissionError
  else if status = 429 then .RateLimited
  else if 500 ≤ status then .UpstreamServerError
  else .ClientError

/-- The error string of main.py lines 208-227 for an `HTTPStatusError`
with the given status, `reason_phrase` and upstream message (the
4xx branch's `message` is `error_detail.get("message", e.response.text)`
or `e.response.text`, sliced to its first 100 characters). -/
def braveHttpErrorString (status : Nat) (reason : String) (message : String) :
    String :=
  if status = 401 then "API authentication failed - check your BRAVE_API_KEY"
  else if status = 403 then "Permission denied - check API key or subscription plan"
  else if status = 429 then "Rate limit exceeded - please wait before trying again"
  else if 500 ≤ status then "Brave API server error: " ++ toString status ++ " " ++ reason
  else "API client error: " ++ toString status ++ " - " ++ strTake 100 message

/-! ## HTML extraction in `fetch_website` (main.py lines 129-149)

The BeautifulSoup document is a forest of element and text nodes.  (The
forest is its own inductive rather than a `List` of nodes so that the
recursions below are structural and compute inside the kernel; it is
isomorphic to `List HtmlNode`.) -/

mutual
inductive HtmlNode where
  | text (s : List Char)
  | elem (tag : String) (children : HtmlForest)
inductive HtmlForest where
  | nil
  | cons (head : HtmlNode) (tail : HtmlForest)
end

/-- The tags whose subtrees `fetch_website` decomposes (main.py
lines 131-134). -/
def removedTags : List String :=
  ["script", "style", "nav", "footer", "header", "aside"]

/-- `for element in soup([...tags...]): element.decompose()` — remove
every subtree rooted at a removed tag, at any depth. -/
def stripNodes : HtmlForest → HtmlForest
  | .nil => .nil
  | .cons (.text s) rest => .cons (.text s) (stripNodes rest)
  | .cons (.elem tag cs) rest =>
    if tag ∈ removedTags then stripNodes rest
    else .cons (.elem tag (stripNodes cs)) (stripNodes rest)

/-- The text-node contents of a forest, in document order. -/
def textFragments : HtmlForest → List (List Char)
  | .nil => []
  | .cons (.text s) rest => s :: textFragments rest
  | .cons (.elem _ cs) rest => textFragments cs ++ textFragments rest

/-- `soup.get_text(separator="\n", strip=True)`: strip each text
fragment, drop the ones that become empty, join with `"\n"`. -/
def getTextStrip (ns : HtmlForest) : List Char :=
  joinLines (((textFragments ns).map pyStrip).filter (fun l => !l.isEmpty))

/-- Main.py lines 131-139: decompose the removed tags, extract text,
then keep only the lines whose `strip()` is non-empty (the kept lines
themselves are NOT stripped) and rejoin with `"\n"`. -/
def extractText (ns : HtmlForest) : List Char :=
  joinLines ((pySplitlines (getTextStrip (stripNodes ns))).filter
    (fun l => !(pyStrip l).isEmpty))

/-- The text fragments of the forest that do not lie under any
removed-tag element — written from the specification's words (`script`
… text "never appears in output") for comparison with
`textFragments ∘ stripNodes`; it never descends into a removed subtree. -/
def fragmentsOutsideRemoved : HtmlForest → List (List Char)
  | .nil => []
  | .cons (.text s) rest => s :: fragmentsOutsideRemoved rest
  | .cons (.elem tag cs) rest =>
    (if tag ∈ removedTags then [] else fragmentsOutsideRemoved cs) ++
      fragmentsOutsideRemoved rest

/-- The extraction pipeline with the removed subtrees skipped at the
fragment-collection stage (specification's reading). -/
def extractTextOutsideRemoved (ns : HtmlForest) : List Char :=
  joinLines ((pySplitlines (joinLines (((fragmentsOutsideRemoved ns).map
    pyStrip).filter (fun l => !l.isEmpty)))).filter
    (fun l => !(pyStrip l).isEmpty))

def max_length : Nat := 10000

/-- The literal marker appended on truncation (main.py line 148, with
`max_length = 10000` interpolated). -/
def truncationMarker : List Char :=
  "...\n[Content truncated due to length exceeding 10000 characters]".data

/-- Main.py lines 141-149: truncate to `max_length` characters and append
the marker iff the text is longer than `max_length`. -/
def truncateContent (text : List Char) : List Char :=
  if max_length < text.length then
    text.take max_length ++ truncationMarker
  else
    text

/-! ## `fetch_website` (main.py lines 98-167) -/

/-- The outcome of the single `client.get` + `raise_for_status` +
BeautifulSoup parse inside `fetch_website`'s `try`, as far as the
handler distinguishes: a parsed document, or one of the caught
exception classes. -/
inductive FetchOutcome where
  | success (doc : HtmlForest)
  | httpStatusError (status : Nat) (reason : String)
  | timeoutError (seconds : String)
  | requestError (className : String)
  | otherError (className : String)

/-- The tool body of `fetch_website` as a function of its URL argument
and of what the network would yield; the Boolean records whether the
network call site was reached.  The URL-validation guard (lines 116-118)
precedes the `try`, so an invalid URL returns before any network I/O. -/
def fetch_website (url : String) (net : FetchOutcome) : String × Bool :=
  if !is_valid_url url then
    ("Invalid URL format", false)
  else
    match net with
    | .success doc => (⟨truncateContent (extractText doc)⟩, true)
    | .httpStatusError status reason =>
      ("Error fetching website: HTTP " ++ toString status ++ " " ++ reason, true)
    | .timeoutError seconds =>
      ("Error fetching website: Request timed out after " ++ seconds ++ " seconds", true)
    | .requestError className =>
      ("Error connecting to website: " ++ className, true)
    | .otherError className =>
      ("Error processing website content: " ++ className, true)

/-! ## Lemmas about `pySplitlines` and `joinLines` -/

theorem pySplitlines_crlf (rest : List Char) :
    pySplitlines ('\r' :: '\n' :: rest) = [] :: pySplitlines rest := rfl

theorem pySplitlines_lf (rest : List Char) :
    pySplitlines ('\n' :: rest) = [] :: pySplitlines rest := rfl

set_option maxHeartbeats 2000000 in
theorem pySplitlines_cons (c : Char) (rest : List Char)
    (hc : isLineBreakChar c = false) :
    pySplitlines (c :: rest) =
      match pySplitlines rest with
      | [] => [[c]]
      | l :: ls => (c :: l) :: ls := by
  rw [pySplitlines.eq_def]
  split
  case h_1 x heq => simp at heq
  case h_2 x r2 heq =>
    injection heq with h1 h2
    subst h1
    simp [isLineBreakChar] at hc
  case h_3 x c2 r2 hno heq =>
    injection heq with h1 h2
    subst h1
    subst h2
    rw [hc]
    simp

set_option maxHeartbeats 2000000 in
theorem pySplitlines_break (c : Char) (rest : List Char)
    (hc : isLineBreakChar c = true)
    (hno : ∀ r2, c = '\r' → rest = '\n' :: r2 → False) :
    pySplitlines (c :: rest) = [] :: pySplitlines rest := by
  rw [pySplitlines.eq_def]
  split
  case h_1 x heq => simp at heq
  case h_2 x r2 heq =>
    injection heq with h1 h2
    exact (hno r2 h1 h2).elim
  case h_3 x c2 r2 hno2 heq =>
    injection heq with h1 h2
    subst h1
    subst h2
    rw [hc]
    simp

/-- Every line produced by `splitlines` is free of line-break characters. -/
theorem pySplitlines_no_break (s : List Char) :
    ∀ l ∈ pySplitlines s, ∀ c ∈ l, isLineBreakChar c = false := by
  induction s using pySplitlines.induct with
  | case1 => simp [pySplitlines]
  | case2 rest ih =>
    rw [pySplitlines_crlf]
    intro l hl
    rcases List.mem_cons.mp hl with h | h
    · subst h; simp
    · exact ih l h
  | case3 c rest hno hc ih =>
    rw [pySplitlines_break c rest hc hno]
    intro l hl
    rcases List.mem_cons.mp hl with h | h
    · subst h; simp
    · exact ih l h
  | case4 c rest hno hc hrest ih =>
    rw [pySplitlines_cons c rest (Bool.not_eq_true _ ▸ hc), hrest]
    intro l hl
    rcases List.mem_cons.mp hl with h | h
    · subst h
      intro d hd
      rcases List.mem_singleton.mp hd with rfl
      exact Bool.not_eq_true _ ▸ hc
    · simp at h
  | case5 c rest hno hc l0 ls hrest ih =>
    rw [pySplitlines_cons c rest (Bool.not_eq_true _ ▸ hc), hrest]
    intro l hl
    rcases List.mem_cons.mp hl with h | h
    · subst h
      intro d hd
      rcases List.mem_cons.mp hd with rfl | hd2
      · exact Bool.not_eq_true _ ▸ hc
      · exact ih l0 (hrest ▸ List.mem_cons_self l0 ls) d hd2
    · exact ih l (hrest ▸ List.mem_cons_of_mem l0 h)

/-- A non-empty line free of line-break characters splits into itself. -/
theorem pySplitlines_single_no_break :
    ∀ (l : List Char), l ≠ [] → (∀ c ∈ l, isLineBreakChar c = false) →
      pySplitlines l = [l]
  | [], h, _ => absurd rfl h
  | [c], _, hb => by
    rw [pySplitlines_cons c [] (hb c (by simp))]
    rfl
  | c :: c2 :: l, _, hb => by
    rw [pySplitlines_cons c (c2 :: l) (hb c (by simp)),
      pySplitlines_single_no_break (c2 :: l) (by simp)
        (fun d hd => hb d (List.mem_cons_of_mem c hd))]

theorem pySplitlines_append_lf (l t : List Char) (hne : l ≠ [])
    (hb : ∀ c ∈ l, isLineBreakChar c = false) :
    pySplitlines (l ++ '\n' :: t) = l :: pySplitlines t := by
  induction l with
  | nil => exact absurd rfl hne
  | cons c l ih =>
    rw [List.cons_append, pySplitlines_cons c (l ++ '\n' :: t)
      (hb c (by simp))]
    cases l with
    | nil => rw [List.nil_append, pySplitlines_lf]
    | cons c2 l2 =>
      rw [ih (by simp) (fun d hd => hb d (List.mem_cons_of_mem c hd))]

/-- Joining non-empty break-free lines with `"\n"` and splitting again
recovers the lines. -/
theorem pySplitlines_joinLines (L : List (List Char))
    (h : ∀ l ∈ L, l ≠ [] ∧ ∀ c ∈ l, isLineBreakChar c = false) :
    pySplitlines (joinLines L) = L := by
  induction L with
  | nil => rfl
  | cons l L ih =>
    cases L with
    | nil =>
      exact pySplitlines_single_no_break l (h l (by simp)).1 (h l (by simp)).2
    | cons l2 L2 =>
      rw [joinLines, pySplitlines_append_lf l _ (h l (by simp)).1
        (h l (by simp)).2,
        ih (fun x hx => h x (List.mem_cons_of_mem l hx))]

end BraveSearchMcp

namespace BraveSearchMcp

theorem textFragments_stripNodes :
    ∀ ns : HtmlForest, textFragments (stripNodes ns) = fragmentsOutsideRemoved ns
  | .nil => rfl
  | .cons (.text s) rest => by
    simp [stripNodes, textFragments, fragmentsOutsideRemoved,
      textFragments_stripNodes rest]
  | .cons (.elem tag cs) rest => by
    by_cases h : tag ∈ removedTags
    · simp [stripNodes, fragmentsOutsideRemoved, h, textFragments_stripNodes rest]
    · simp [stripNodes, textFragments, fragmentsOutsideRemoved, h,
        textFragments_stripNodes cs, textFragments_stripNodes rest]

theorem enumFormat_length (start : Int) (rs : List SearchHit) :
    (enumFormat start rs).length = rs.length := by
  induction rs generalizing start with
  | nil => rfl
  | cons r rs ih => simp [enumFormat, ih]

theorem enumFormat_getElem? (rs : List SearchHit) (start : Int) (k : Nat) :
    (enumFormat start rs)[k]? = (rs[k]?).map (fun r => formatHit (start + k) r) := by
  induction rs generalizing start k with
  | nil => simp [enumFormat]
  | cons r rs ih =>
    cases k with
    | zero => simp [enumFormat]
    | succ k =>
      have harith : start + 1 + (k : Int) = start + ((k + 1 : Nat) : Int) := by
        push_cast
        ring
      simp only [enumFormat, List.getElem?_cons_succ, ih, harith]

end BraveSearchMcp

namespace BraveSearchMcp

/-- C1 (amended): for every invocation of `brave_web_search` whose
arguments fail validation (query empty or whitespace-only, count outside
`[1, 20]`, or offset negative), the `WebSearchRequest` constructor raises
a `ValidationError` before any network call — the invocation terminates
abnormally (no string result) and the network call site is never
reached. -/
theorem claim_C1_amended (query : String) (count offset : Int) (net : BraveData)
    (h : pyStrip query.data = [] ∨ count < 1 ∨ 20 < count ∨ offset < 0) :
    (brave_web_search query count offset net).1.isOk = false ∧
    (brave_web_search query count offset net).2 = false := by
  have hex : ∃ m, mkWebSearchRequest query count offset = .error m := by
    rw [mkWebSearchRequest]
    split_ifs with h1 h2 h3 h4
    · exact ⟨_, rfl⟩
    · exact ⟨_, rfl⟩
    · exact ⟨_, rfl⟩
    · exact ⟨_, rfl⟩
    · rcases h with h | h | h | h
      · exact absurd h h1
      · exact absurd h h2
      · exact absurd h h3
      · exact absurd h h4
  obtain ⟨m, hm⟩ := hex
  rw [brave_web_search, hm]
  exact ⟨rfl, rfl⟩

/-- C1 (counterexample): at the concrete invalid input `query = ""`,
`count = 10`, `offset = 0`, the invocation does NOT terminate normally
with an error string as the claim states — it raises (the outcome is not
`.ok`), although no network call is issued. -/
theorem claim_C1_counterexample :
    (brave_web_search "" 10 0 ⟨none, none⟩).1.isOk = false ∧
    (brave_web_search "" 10 0 ⟨none, none⟩).2 = false := by decide

/-- C1 (witness): the amended theorem applied at the concrete input
`("", 10, 0)`. -/
theorem claim_C1_amended_witness :
    (pyStrip "".data = [] ∨ (10 : Int) < 1 ∨ 20 < (10 : Int) ∨ (0 : Int) < 0) ∧
    (brave_web_search "" 10 0 ⟨none, none⟩).1.isOk = false ∧
    (brave_web_search "" 10 0 ⟨none, none⟩).2 = false :=
  ⟨Or.inl rfl, claim_C1_amended "" 10 0 ⟨none, none⟩ (Or.inl rfl)⟩

/-- C2: for every HTTP status `s ∈ [400, 599]`, the error classification
of `make_brave_request` yields exactly one kind per the table — `401 →
AuthError`, `403 → PermissionError`, `429 → RateLimited`, `s ≥ 500 →
UpstreamServerError`, any other 4xx → `ClientError` with the upstream
message truncated to at most 100 characters.  `classifyStatus` is a
total pure function, so re-classification is deterministic and never
raises by construction. -/
theorem claim_C2_classifier_table (s : Nat) (reason msg : String)
    (h4 : 400 ≤ s) (h6 : s ≤ 599) :
    (s = 401 → classifyStatus s = .AuthError) ∧
    (s = 403 → classifyStatus s = .PermissionError) ∧
    (s = 429 → classifyStatus s = .RateLimited) ∧
    (500 ≤ s → classifyStatus s = .UpstreamServerError) ∧
    (s ≠ 401 → s ≠ 403 → s ≠ 429 → s < 500 →
      classifyStatus s = .ClientError ∧
      braveHttpErrorString s reason msg =
        "API client error: " ++ toString s ++ " - " ++ strTake 100 msg ∧
      (strTake 100 msg).length ≤ 100) := by
  refine ⟨?_, ?_, ?_, ?_, ?_⟩
  · intro h; subst h; rfl
  · intro h; subst h; rfl
  · intro h; subst h; rfl
  · intro h
    rw [classifyStatus, if_neg (by omega), if_neg (by omega), if_neg (by omega),
      if_pos h]
  · intro h1 h2 h3 h5
    refine ⟨?_, ?_, ?_⟩
    · rw [classifyStatus, if_neg h1, if_neg h2, if_neg h3, if_neg (by omega)]
    · rw [braveHttpErrorString, if_neg h1, if_neg h2, if_neg h3,
        if_neg (by omega)]
    · have : (strTake 100 msg).length = (msg.data.take 100).length := rfl
      rw [this]
      exact List.length_take_le 100 msg.data

/-- C2 (witness): the table theorem applied at status 418 (an otherwise
unlisted 4xx), which classifies as `ClientError`. -/
theorem claim_C2_classifier_table_witness :
    400 ≤ 418 ∧ 418 ≤ 599 ∧ classifyStatus 418 = .ClientError :=
  ⟨by omega, by omega,
    ((claim_C2_classifier_table 418 "teapot" "m" (by omega) (by omega)).2.2.2.2
      (by omega) (by omega) (by omega) (by omega)).1⟩

/-- C3: for every post-processed document text of length `L`: if
`L > 10000` the returned text is exactly the first 10000 characters
followed by the literal marker
`"...\n[Content truncated due to length exceeding 10000 characters]"`;
if `L ≤ 10000` the text is returned unchanged. -/
theorem claim_C3_truncation (text : List Char) :
    (max_length < text.length →
      truncateContent text = text.take max_length ++ truncationMarker ∧
      (text.take max_length).length = max_length) ∧
    (text.length ≤ max_length → truncateContent text = text) := by
  constructor
  · intro h
    refine ⟨by rw [truncateContent, if_pos h], ?_⟩
    rw [List.length_take]
    omega
  · intro h
    rw [truncateContent, if_neg (by omega)]

/-- C3 (witness): the truncation theorem applied to a concrete text of
length 10001. -/
theorem claim_C3_truncation_witness :
    max_length < (List.replicate 10001 'a').length ∧
    truncateContent (List.replicate 10001 'a') =
      (List.replicate 10001 'a').take max_length ++ truncationMarker :=
  ⟨by simp only [max_length, List.length_replicate]; omega,
   ((claim_C3_truncation (List.replicate 10001 'a')).1
     (by simp only [max_length, List.length_replicate]; omega)).1⟩

/-- C4: the formatter returns exactly the no-results sentinel on an
empty hit list; on a non-empty list the output is the blocks joined by
one blank line, there are as many blocks as hits, and the k-th block
(zero-based) is `[Result {k + offset + 1}]` followed by the Title, URL
and Description lines, each missing field independently replaced by its
default (total `Option.getD` — no field access can raise). -/
theorem claim_C4_formatter (results : List SearchHit) (offset : Int) (k : Nat)
    (hk : k < results.length) :
    formatResults [] offset = "No search results found for your query." ∧
    formatResults results offset =
      String.intercalate "\n\n" (formatBlocks results offset) ∧
    (formatBlocks results offset).length = results.length ∧
    (formatBlocks results offset)[k]? = (results[k]?).map (fun r =>
      "[Result " ++ toString ((k : Int) + offset + 1) ++ "]\n" ++
      "  Title: " ++ r.title.getD "No title available" ++ "\n" ++
      "  URL: " ++ r.url.getD "No URL available" ++ "\n" ++
      "  Description: " ++ r.description.getD "No description available") := by
  refine ⟨rfl, ?_, enumFormat_length _ _, ?_⟩
  · rw [formatResults]
    have hne : results.isEmpty = false := by
      cases results
      · simp at hk
      · rfl
    rw [hne]
    simp
  · rw [formatBlocks, enumFormat_getElem?]
    have harith : (1 + offset + (k : Int)) = ((k : Int) + offset + 1) := by ring
    rw [harith]
    rfl

/-- C4 (witness): the formatter theorem applied at a concrete
two-element hit list (k = 1) and the sentinel at a concrete offset. -/
theorem claim_C4_formatter_witness :
    formatResults ([] : List SearchHit) 5 = "No search results found for your query." ∧
    1 < ([⟨some "T1", some "U1", some "D1"⟩, ⟨none, none, none⟩] : List SearchHit).length :=
  ⟨(claim_C4_formatter [⟨some "T1", some "U1", some "D1"⟩, ⟨none, none, none⟩] 5 1
      (by decide)).1,
   by decide⟩

/-- C5: for every HTML forest, no text contained in a `script`,
`style`, `nav`, `footer`, `header` or `aside` element — however deeply
nested — appears in the extracted document text: extraction after
decomposition equals the pipeline that skips removed subtrees outright
(whose output cannot mention text under a removed tag). -/
theorem claim_C5_removed_never_appears (ns : HtmlForest) :
    textFragments (stripNodes ns) = fragmentsOutsideRemoved ns ∧
    extractText ns = extractTextOutsideRemoved ns := by
  refine ⟨textFragments_stripNodes ns, ?_⟩
  rw [extractText, extractTextOutsideRemoved, getTextStrip,
    textFragments_stripNodes ns]

/-- C6 (amended): `is_valid_url` returns true iff the string parses
into a URL with scheme exactly `http` or `https` and a non-empty netloc
(authority) component; parse failures yield false (the exception is
caught), and the function is total, so it never raises. -/
theorem claim_C6_amended (url : String) :
    is_valid_url url = true ↔
      ∃ r, urlsplitModel url = .ok r ∧
        (r.scheme = "http" ∨ r.scheme = "https") ∧ r.netloc ≠ [] := by
  cases h : urlsplitModel url with
  | error e => simp [is_valid_url, h]
  | ok r =>
    simp only [is_valid_url, h]
    constructor
    · intro hb
      rcases Bool.and_eq_true .. |>.mp hb with ⟨hs, hn⟩
      refine ⟨r, rfl, ?_, ?_⟩
      · rcases Bool.or_eq_true .. |>.mp hs with h1 | h1
        · exact Or.inl (by simpa using h1)
        · exact Or.inr (by simpa using h1)
      · simpa [List.isEmpty_iff] using hn
    · rintro ⟨r2, hr2, hs, hn⟩
      injection hr2 with hr2
      subst hr2
      refine Bool.and_eq_true .. |>.mpr ⟨?_, by simpa [List.isEmpty_iff] using hn⟩
      rcases hs with h1 | h1
      · exact Bool.or_eq_true .. |>.mpr (Or.inl (by simpa using h1))
      · exact Bool.or_eq_true .. |>.mpr (Or.inr (by simpa using h1))

/-- C6 (counterexample): `"http://@"` parses with netloc `"@"` (truthy,
so `is_valid_url` accepts it) but with an empty host component, so the
claim's host-based predicate rejects it — the stated iff fails. -/
theorem claim_C6_counterexample :
    is_valid_url "http://@" = true ∧ specValidUrl "http://@" = false := by decide

/-- C6 (witness): the amended iff applied at the concrete URL
`"https://example.com"`. -/
theorem claim_C6_amended_witness : is_valid_url "https://example.com" = true :=
  (claim_C6_amended "https://example.com").mpr
    ⟨⟨"https", "example.com".data⟩, rfl, Or.inr rfl, by decide⟩

/-- C7 (amended): every line of the extracted (non-truncated) document
text is non-empty and not whitespace-only — so the output contains no
empty line and no run of blank lines.  (The original claim's further
part, that each line equals its own stripped form, is false: kept lines
are not themselves stripped.) -/
theorem claim_C7_amended (ns : HtmlForest) (l : List Char)
    (hl : l ∈ pySplitlines (extractText ns)) :
    l ≠ [] ∧ pyStrip l ≠ [] := by
  have key : pySplitlines (extractText ns) =
      (pySplitlines (getTextStrip (stripNodes ns))).filter
        (fun x => !(pyStrip x).isEmpty) := by
    rw [extractText]
    refine pySplitlines_joinLines _ ?_
    intro x hx
    rcases List.mem_filter.mp hx with ⟨hx1, hx2⟩
    refine ⟨?_, pySplitlines_no_break _ x hx1⟩
    intro he
    subst he
    simp [pyStrip] at hx2
  rw [key] at hl
  rcases List.mem_filter.mp hl with ⟨h1, h2⟩
  have h3 : pyStrip l ≠ [] := by
    intro he
    rw [he] at h2
    simp at h2
  exact ⟨fun he => h3 (by rw [he]; rfl), h3⟩

/-- C7 (counterexample): a paragraph whose text node is
`"a \n b"` extracts to output whose lines are `"a "` and `" b"` — the
line `"a "` has trailing whitespace and differs from its stripped form,
refuting the claim as stated. -/
theorem claim_C7_counterexample :
    pySplitlines (extractText (.cons (.elem "p"
        (.cons (.text ['a', ' ', '\n', ' ', 'b']) .nil)) .nil)) =
      [['a', ' '], [' ', 'b']] ∧
    pyStrip ['a', ' '] = ['a'] ∧ ['a', ' '] ≠ pyStrip ['a', ' '] := by decide

/-- C7 (witness): the amended theorem applied at a concrete forest and
the concrete output line `"a "`. -/
theorem claim_C7_amended_witness :
    ['a', ' '] ∈ pySplitlines (extractText (.cons (.elem "p"
        (.cons (.text ['a', ' ', '\n', ' ', 'b']) .nil)) .nil)) ∧
    (['a', ' '] ≠ [] ∧ pyStrip ['a', ' '] ≠ []) :=
  ⟨by decide,
   claim_C7_amended
     (.cons (.elem "p" (.cons (.text ['a', ' ', '\n', ' ', 'b']) .nil)) .nil)
     ['a', ' '] (by decide)⟩

/-- C8: for every input string failing URL validation, `fetch_website`
returns exactly `"Invalid URL format"` and the network call site is
never reached (the result is independent of the network outcome). -/
theorem claim_C8_invalid_url_no_fetch (url : String) (net : FetchOutcome)
    (h : is_valid_url url = false) :
    fetch_website url net = ("Invalid URL format", false) := by
  simp [fetch_website, h]

/-- C8 (witness): the theorem applied at the concrete input
`"not-a-valid-url"` (the spec's own example), with an arbitrary network
outcome. -/
theorem claim_C8_invalid_url_no_fetch_witness :
    is_valid_url "not-a-valid-url" = false ∧
    fetch_website "not-a-valid-url" (.timeoutError "15.0") =
      ("Invalid URL format", false) :=
  ⟨by decide, claim_C8_invalid_url_no_fetch "not-a-valid-url" _ (by decide)⟩

/-- C9: for every validated search invocation, the request parameters
always contain `search_lang` with value `"en"`: the field is never
`None`, `model_dump(exclude_none=True)` drops only `None`-valued fields,
and the urlencoded request URL carries the `search_lang=en`
component. -/
theorem claim_C9_search_lang (query : String) (count offset : Int)
    (req : WebSearchRequest)
    (h : mkWebSearchRequest query count offset = .ok req) :
    req.search_lang = "en" ∧
    ("search_lang", some "en") ∈ model_dump_fields req ∧
    ("search_lang", "en") ∈ model_dump_exclude_none req ∧
    "search_lang=en" ∈ (model_dump_exclude_none req).map
      (fun kv => quotePlus kv.1 ++ "=" ++ quotePlus kv.2) ∧
    buildSearchUrl req = BRAVE_API_BASE ++ "/web/search?" ++
      String.intercalate "&" ((model_dump_exclude_none req).map
        (fun kv => quotePlus kv.1 ++ "=" ++ quotePlus kv.2)) := by
  have hsl : req.search_lang = "en" := by
    rw [mkWebSearchRequest] at h
    split_ifs at h
    injection h with h
    subst h
    rfl
  refine ⟨hsl, ?_, ?_, ?_, rfl⟩
  · simp [model_dump_fields, hsl]
  · simp [model_dump_exclude_none, model_dump_fields, hsl]
  · simp only [model_dump_exclude_none, model_dump_fields, hsl]
    simp only [List.filterMap, Option.map_some]
    simp [show quotePlus "search_lang" ++ "=" ++ quotePlus "en" = "search_lang=en" from rfl]

/-- C9 (witness): the theorem applied at the concrete valid invocation
`("test", 10, 0)`. -/
theorem claim_C9_search_lang_witness :
    mkWebSearchRequest "test" 10 0 = .ok ⟨"test", 10, 0, "en"⟩ ∧
    ("search_lang", "en") ∈ model_dump_exclude_none ⟨"test", 10, 0, "en"⟩ :=
  ⟨rfl, (claim_C9_search_lang "test" 10 0 _ rfl).2.2.1⟩

/-- C10: for every parsed response dictionary containing the `"error"`
key, `brave_web_search` returns `"Search error: "` followed by its
value, regardless of whether `"web"`/`"results"` are also present — the
error check strictly precedes the structure and no-results checks. -/
theorem claim_C10_error_first (offset : Int) (data : BraveData) (e : String)
    (h : data.error = some e) :
    processSearchData offset data = "Search error: " ++ e := by
  cases data with
  | mk err web =>
    simp only [BraveData.error] at h
    subst h
    rfl

/-- C10 (witness): the theorem applied at a concrete response that has
both an `"error"` key and a populated `"web.results"` list. -/
theorem claim_C10_error_first_witness :
    (⟨some "boom", some (some [⟨some "T", some "U", some "D"⟩])⟩ : BraveData).error =
      some "boom" ∧
    processSearchData 0 ⟨some "boom", some (some [⟨some "T", some "U", some "D"⟩])⟩ =
      "Search error: " ++ "boom" :=
  ⟨rfl, claim_C10_error_first 0
    ⟨some "boom", some (some [⟨some "T", some "U", some "D"⟩])⟩ "boom" rfl⟩

end BraveSearchMcp
